import Mathlib

/-!
Verification development for the real-time chat service
(`app/services/socket_manager.py` and `app/routers/chat.py`).

Websocket connections are identified by natural numbers, users by natural
numbers.  The Python `ConnectionManager.active_connections` dict is embedded
as an association list from user id to the user's list of connections;
Python dict/list operations are mirrored by `setEntry` / `delEntry` /
`List.erase`.  Send failures in `send_personal_message` are made explicit by
passing the set of connections whose `send_json` raises (the `dead` list);
the source swallows those exceptions and prunes the connections, which the
embedding reflects by returning a pruned manager instead of an error.
-/

abbrev WS := Nat
abbrev UserId := Nat

/-- Replace (first) binding of `uid`, or append a fresh binding: the effect of
`self.active_connections[user_id] = v` on a Python dict. -/
def setEntry (l : List (UserId × List WS)) (uid : UserId) (v : List WS) :
    List (UserId × List WS) :=
  match l with
  | [] => [(uid, v)]
  | (k, w) :: t => if k = uid then (uid, v) :: t else (k, w) :: setEntry t uid v

/-- Delete the binding of `uid`: the effect of `del self.active_connections[user_id]`. -/
def delEntry (l : List (UserId × List WS)) (uid : UserId) : List (UserId × List WS) :=
  l.filter (fun p => p.1 ≠ uid)

/-- `ConnectionManager`: `active_connections: Dict[int, List[WebSocket]]`. -/
structure Manager where
  active : List (UserId × List WS)
deriving DecidableEq, Repr

/-- `ConnectionManager.connect` (socket_manager.py lines 11-20): create the
entry if absent, then append the websocket. -/
def Manager.connect (m : Manager) (ws : WS) (uid : UserId) : Manager :=
  match m.active.lookup uid with
  | none => ⟨setEntry m.active uid [ws]⟩
  | some conns => ⟨setEntry m.active uid (conns ++ [ws])⟩

/-- `ConnectionManager.disconnect` (socket_manager.py lines 22-35): remove the
websocket from the user's list if present; delete the entry when the list
becomes empty. -/
def Manager.disconnect (m : Manager) (ws : WS) (uid : UserId) : Manager :=
  match m.active.lookup uid with
  | none => m
  | some conns =>
      let conns' := if ws ∈ conns then conns.erase ws else conns
      if conns'.length = 0 then ⟨delEntry m.active uid⟩
      else ⟨setEntry m.active uid conns'⟩

/-- `ConnectionManager.is_user_online` (socket_manager.py lines 37-55):
a user is online when it has an entry whose connection list, minus the
optional excluded websocket, is nonempty. -/
def Manager.is_user_online (m : Manager) (uid : UserId) (excl : Option WS) : Bool :=
  match m.active.lookup uid with
  | none => false
  | some conns =>
      match excl with
      | some e => decide (0 < (conns.filter (fun w => w ≠ e)).length)
      | none => decide (0 < conns.length)

/-- `ConnectionManager.get_connection_count` (socket_manager.py lines 57-61). -/
def Manager.get_connection_count (m : Manager) (uid : UserId) : Nat :=
  match m.active.lookup uid with
  | none => 0
  | some conns => conns.length

/-- `ConnectionManager.send_personal_message` (socket_manager.py lines 63-95).
`dead` is the set of connections whose `send_json` raises; the source catches
each failure, collects the failing connections, removes them from the entry,
and deletes the entry if it is left empty.  Returns the updated manager and
the list of connections to which the payload was delivered. -/
def Manager.send_personal_message (m : Manager) (receiver : UserId) (dead : List WS) :
    Manager × List WS :=
  match m.active.lookup receiver with
  | none => (m, [])
  | some conns =>
      let delivered := conns.filter (fun w => ¬ w ∈ dead)
      let deadConns := conns.filter (fun w => w ∈ dead)
      if deadConns.isEmpty then (m, delivered)
      else
        let conns' := deadConns.foldl (fun l w => l.erase w) conns
        if conns'.isEmpty then (⟨delEntry m.active receiver⟩, delivered)
        else (⟨setEntry m.active receiver conns'⟩, delivered)

/-- One registry operation: a connection opens, a connection closes, or a
fan-out runs with a given set of failing connections. -/
inductive RegOp
  | conn (ws : WS) (uid : UserId)
  | disc (ws : WS) (uid : UserId)
  | fanout (uid : UserId) (dead : List WS)
deriving DecidableEq, Repr

def applyRegOp (m : Manager) : RegOp → Manager
  | RegOp.conn ws uid => m.connect ws uid
  | RegOp.disc ws uid => m.disconnect ws uid
  | RegOp.fanout uid dead => (m.send_personal_message uid dead).1

/-- Run a sequence of registry operations from the empty registry. -/
def runRegOps (ops : List RegOp) : Manager :=
  ops.foldl applyRegOp ⟨[]⟩

/-- The registry invariant: no entry holds an empty connection list. -/
def Manager.NoEmpty (m : Manager) : Prop :=
  ∀ p ∈ m.active, p.2 ≠ ([] : List WS)

theorem lookup_setEntry_self (l : List (UserId × List WS)) (uid : UserId) (v : List WS) :
    (setEntry l uid v).lookup uid = some v := by
  induction l with
  | nil => simp [setEntry, List.lookup]
  | cons p t ih =>
      obtain ⟨k, w⟩ := p
      by_cases h : k = uid
      · simp [setEntry, h, List.lookup]
      · simp only [setEntry, if_neg h, List.lookup]
        have : (uid == k) = false := by
          simp [beq_iff_eq]
          exact fun hh => h hh.symm
        simp [this, ih]

theorem lookup_eq_none_of_forall (l : List (UserId × List WS)) (uid : UserId)
    (h : ∀ p ∈ l, p.1 ≠ uid) : l.lookup uid = none := by
  induction l with
  | nil => rfl
  | cons q t ih =>
      obtain ⟨k, w⟩ := q
      have hk : k ≠ uid := h (k, w) (List.mem_cons_self _ _)
      simp only [List.lookup]
      have hb : (uid == k) = false := by
        simp only [beq_eq_false_iff_ne, ne_eq]
        exact fun hh => hk hh.symm
      simp only [hb]
      exact ih (fun p hp => h p (List.mem_cons_of_mem _ hp))

theorem lookup_delEntry_self (l : List (UserId × List WS)) (uid : UserId) :
    (delEntry l uid).lookup uid = none := by
  apply lookup_eq_none_of_forall
  intro p hp
  have := List.of_mem_filter hp
  simpa using this

theorem mem_setEntry (l : List (UserId × List WS)) (uid : UserId) (v : List WS)
    (p : UserId × List WS) (hp : p ∈ setEntry l uid v) : p = (uid, v) ∨ p ∈ l := by
  induction l with
  | nil => simpa [setEntry] using hp
  | cons q t ih =>
      obtain ⟨k, w⟩ := q
      by_cases h : k = uid
      · simp only [setEntry, if_pos h] at hp
        rcases List.mem_cons.1 hp with h1 | h1
        · exact Or.inl h1
        · exact Or.inr (List.mem_cons_of_mem _ h1)
      · simp only [setEntry, if_neg h] at hp
        rcases List.mem_cons.1 hp with h1 | h1
        · exact Or.inr (h1 ▸ List.mem_cons_self _ _)
        · rcases ih h1 with h2 | h2
          · exact Or.inl h2
          · exact Or.inr (List.mem_cons_of_mem _ h2)

theorem mem_delEntry (l : List (UserId × List WS)) (uid : UserId)
    (p : UserId × List WS) (hp : p ∈ delEntry l uid) : p ∈ l :=
  List.mem_of_mem_filter hp

theorem noEmpty_setEntry {l : List (UserId × List WS)} {uid : UserId} {v : List WS}
    (hl : ∀ p ∈ l, p.2 ≠ ([] : List WS)) (hv : v ≠ []) :
    ∀ p ∈ setEntry l uid v, p.2 ≠ ([] : List WS) := by
  intro p hp
  rcases mem_setEntry l uid v p hp with h | h
  · rw [h]; exact hv
  · exact hl p h

theorem noEmpty_connect (m : Manager) (ws : WS) (uid : UserId)
    (h : m.NoEmpty) : (m.connect ws uid).NoEmpty := by
  unfold Manager.connect
  cases hl : m.active.lookup uid with
  | none =>
      intro p hp
      exact noEmpty_setEntry h (by simp) p hp
  | some conns =>
      intro p hp
      exact noEmpty_setEntry h (by simp) p hp

theorem noEmpty_disconnect (m : Manager) (ws : WS) (uid : UserId)
    (h : m.NoEmpty) : (m.disconnect ws uid).NoEmpty := by
  unfold Manager.disconnect
  cases hl : m.active.lookup uid with
  | none => exact h
  | some conns =>
      simp only []
      by_cases hlen : (if ws ∈ conns then conns.erase ws else conns).length = 0
      · simp only [if_pos hlen]
        intro p hp
        exact h p (mem_delEntry _ _ _ hp)
      · simp only [if_neg hlen]
        intro p hp
        refine noEmpty_setEntry h ?_ p hp
        intro hnil
        exact hlen (by rw [hnil]; rfl)

theorem noEmpty_fanout (m : Manager) (uid : UserId) (dead : List WS)
    (h : m.NoEmpty) : (m.send_personal_message uid dead).1.NoEmpty := by
  unfold Manager.send_personal_message
  cases hl : m.active.lookup uid with
  | none => exact h
  | some conns =>
      simp only []
      by_cases hd : (conns.filter (fun w => w ∈ dead)).isEmpty
      · simp only [if_pos hd]; exact h
      · simp only [if_neg hd]
        by_cases hc :
            ((conns.filter (fun w => w ∈ dead)).foldl (fun l w => l.erase w) conns).isEmpty
        · simp only [if_pos hc]
          intro p hp
          exact h p (mem_delEntry _ _ _ hp)
        · simp only [if_neg hc]
          intro p hp
          refine noEmpty_setEntry h ?_ p hp
          intro hnil
          rw [hnil] at hc
          exact hc rfl

theorem noEmpty_applyRegOp (m : Manager) (op : RegOp)
    (h : m.NoEmpty) : (applyRegOp m op).NoEmpty := by
  cases op with
  | conn ws uid => exact noEmpty_connect m ws uid h
  | disc ws uid => exact noEmpty_disconnect m ws uid h
  | fanout uid dead => exact noEmpty_fanout m uid dead h

theorem noEmpty_runRegOps (ops : List RegOp) : (runRegOps ops).NoEmpty := by
  have main : ∀ (ops : List RegOp) (m : Manager), m.NoEmpty →
      (ops.foldl applyRegOp m).NoEmpty := by
    intro ops
    induction ops with
    | nil => intro m h; exact h
    | cons op rest ih =>
        intro m h
        exact ih (applyRegOp m op) (noEmpty_applyRegOp m op h)
  exact main ops ⟨[]⟩ (by intro p hp; simp at hp)

theorem is_user_online_iff_count (m : Manager) (uid : UserId) :
    m.is_user_online uid none = true ↔ 0 < m.get_connection_count uid := by
  unfold Manager.is_user_online Manager.get_connection_count
  cases m.active.lookup uid with
  | none => simp
  | some conns => simp

/-- C2: for every sequence of register/unregister/fan-out operations on the
registry, `is_user_online` returns true exactly when the user has at least one
registered connection, and the registry never maps a user to an empty
connection list. -/
theorem C2_online_iff_nonempty_and_no_empty_entries (ops : List RegOp) (uid : UserId) :
    ((runRegOps ops).is_user_online uid none = true ↔
      0 < (runRegOps ops).get_connection_count uid)
    ∧ (runRegOps ops).NoEmpty :=
  ⟨is_user_online_iff_count (runRegOps ops) uid, noEmpty_runRegOps ops⟩

/-- Presence announcements pushed to contacts via `notify_contacts_about_status`. -/
inductive PEvent
  | online (uid : UserId)
  | offline (uid : UserId)
deriving DecidableEq, Repr

/-- `websocket_endpoint` connection setup (chat.py lines 202-218): register the
connection, compute `was_offline` excluding the just-added websocket, close and
return (without unregistering) when the user record does not exist, otherwise
announce `online` when the user was offline. -/
def handleOpen (m : Manager) (ws : WS) (uid : UserId) (userExists : Bool) :
    Manager × List PEvent :=
  let m1 := m.connect ws uid
  let wasOffline := ! m1.is_user_online uid (some ws)
  if !userExists then (m1, [])
  else if wasOffline then (m1, [PEvent.online uid]) else (m1, [])

/-- `websocket_endpoint` disconnect handling (chat.py lines 361-371, the
`except WebSocketDisconnect` block): unregister the connection and announce
`offline` when no connection remains. -/
def handleClose (m : Manager) (ws : WS) (uid : UserId) : Manager × List PEvent :=
  let m1 := m.disconnect ws uid
  if ! m1.is_user_online uid none then (m1, [PEvent.offline uid]) else (m1, [])

theorem filter_ne_of_not_mem (conns : List WS) (ws : WS) (h : ws ∉ conns) :
    conns.filter (fun w => w ≠ ws) = conns := by
  apply List.filter_eq_self.mpr
  intro a ha
  simp only [ne_eq, decide_not, Bool.not_eq_true', decide_eq_false_iff_not]
  intro hcontra
  exact h (hcontra ▸ ha)

/-- C1: the `online` announcement fires exactly when the opening connection is
the user's first (connection count 0 before the open), and the `offline`
announcement fires exactly when the closing connection is the user's last
(connection count 1 before the close); intermediate opens and closes fire
nothing. -/
theorem C1_presence_fires_only_on_boundary (m : Manager) (ws : WS) (uid : UserId) :
    ((∀ conns, m.active.lookup uid = some conns → ws ∉ conns) →
      (handleOpen m ws uid true).2 =
        (if m.get_connection_count uid = 0 then [PEvent.online uid] else []))
    ∧ (∀ conns, m.active.lookup uid = some conns → ws ∈ conns →
      (handleClose m ws uid).2 =
        (if m.get_connection_count uid = 1 then [PEvent.offline uid] else [])) := by
  constructor
  · intro hfresh
    unfold handleOpen Manager.connect Manager.is_user_online Manager.get_connection_count
    cases hl : m.active.lookup uid with
    | none =>
        simp [hl, lookup_setEntry_self]
    | some conns =>
        have hws : ws ∉ conns := hfresh conns hl
        have hfilter : (conns ++ [ws]).filter (fun w => w ≠ ws) = conns := by
          rw [List.filter_append, filter_ne_of_not_mem conns ws hws]
          simp
        simp only [hl, lookup_setEntry_self, hfilter, Bool.not_eq_true']
        by_cases hc : conns.length = 0
        · simp [hc]
        · simp [hc, Nat.pos_of_ne_zero hc]
  · intro conns hl hmem
    unfold handleClose Manager.disconnect Manager.is_user_online Manager.get_connection_count
    have hpos : 0 < conns.length := List.length_pos.mpr (List.ne_nil_of_mem hmem)
    have herase : (conns.erase ws).length = conns.length - 1 :=
      List.length_erase_of_mem hmem
    simp only [hl, if_pos hmem]
    by_cases h1 : conns.length = 1
    · have : (conns.erase ws).length = 0 := by rw [herase, h1]
      simp [this, lookup_delEntry_self, h1]
    · have hge : 2 ≤ conns.length := by omega
      have hlen : (conns.erase ws).length ≠ 0 := by omega
      simp only [if_neg hlen]
      simp [lookup_setEntry_self, Nat.pos_of_ne_zero hlen, h1]

theorem C1_presence_fires_only_on_boundary_witness :
    (handleOpen ⟨[]⟩ 5 1 true).2 = [PEvent.online 1]
    ∧ (handleClose ⟨[(1, [5])]⟩ 5 1).2 = [PEvent.offline 1] := by
  constructor
  · have h := (C1_presence_fires_only_on_boundary ⟨[]⟩ 5 1).1 (by intro conns h; simp [List.lookup] at h)
    simpa using h
  · have h := (C1_presence_fires_only_on_boundary ⟨[(1, [5])]⟩ 5 1).2 [5] (by rfl) (by decide)
    simpa using h

/-- C9: a fan-out to a user holding one dead and one live connection delivers
the payload to the live connection, prunes the dead one, and keeps the entry
with the surviving connection. -/
theorem C9_fanout_prunes_dead_keeps_live (m : Manager) (uid : UserId) (w1 w2 : WS)
    (h : m.active.lookup uid = some [w1, w2]) (hne : w1 ≠ w2) :
    (m.send_personal_message uid [w1]).2 = [w2]
    ∧ (m.send_personal_message uid [w1]).1.active.lookup uid = some [w2] := by
  have hne' : w2 ≠ w1 := fun hh => hne hh.symm
  unfold Manager.send_personal_message
  simp only [h]
  constructor
  · simp [List.filter, hne, hne', List.erase_cons_head, lookup_setEntry_self]
  · simp [List.filter, hne, hne', List.erase_cons_head, lookup_setEntry_self]

theorem C9_fanout_prunes_dead_keeps_live_witness :
    (Manager.send_personal_message ⟨[(1, [7, 8])]⟩ 1 [7]).2 = [8]
    ∧ (Manager.send_personal_message ⟨[(1, [7, 8])]⟩ 1 [7]).1.active.lookup 1 = some [8] :=
  C9_fanout_prunes_dead_keeps_live ⟨[(1, [7, 8])]⟩ 1 7 8 (by rfl) (by decide)

/-- C10: opening a connection under a client id with no user record closes the
socket without unregistering it, so the registry still holds the connection and
reports the nonexistent user online, until a later fan-out whose send fails
prunes the dead connection and deletes the entry. -/
theorem C10_ghost_connection_until_pruned (m : Manager) (ws : WS) (uid : UserId)
    (h : m.active.lookup uid = none) :
    (handleOpen m ws uid false).2 = []
    ∧ (handleOpen m ws uid false).1.active.lookup uid = some [ws]
    ∧ (handleOpen m ws uid false).1.is_user_online uid none = true
    ∧ ((handleOpen m ws uid false).1.send_personal_message uid [ws]).1.active.lookup uid = none
    ∧ ((handleOpen m ws uid false).1.send_personal_message uid [ws]).1.is_user_online uid none
        = false := by
  refine ⟨?_, ?_, ?_, ?_, ?_⟩
  · simp [handleOpen, Manager.connect, h]
  · simp [handleOpen, Manager.connect, h, lookup_setEntry_self]
  · simp [handleOpen, Manager.connect, Manager.is_user_online, h, lookup_setEntry_self]
  · simp [handleOpen, Manager.connect, Manager.send_personal_message, h,
      lookup_setEntry_self, List.filter, List.erase_cons_head, lookup_delEntry_self]
  · simp [handleOpen, Manager.connect, Manager.send_personal_message, Manager.is_user_online,
      h, lookup_setEntry_self, List.filter, List.erase_cons_head, lookup_delEntry_self]

theorem C10_ghost_connection_until_pruned_witness :
    (handleOpen ⟨[]⟩ 9 42 false).2 = []
    ∧ (handleOpen ⟨[]⟩ 9 42 false).1.active.lookup 42 = some [9]
    ∧ (handleOpen ⟨[]⟩ 9 42 false).1.is_user_online 42 none = true
    ∧ ((handleOpen ⟨[]⟩ 9 42 false).1.send_personal_message 42 [9]).1.active.lookup 42 = none
    ∧ ((handleOpen ⟨[]⟩ 9 42 false).1.send_personal_message 42 [9]).1.is_user_online 42 none
        = false :=
  C10_ghost_connection_until_pruned ⟨[]⟩ 9 42 (by rfl)

/-- Message delivery status (`Message.status` column: "sent"/"delivered"/"read"). -/
inductive Status
  | sent
  | delivered
  | read
deriving DecidableEq, Repr

/-- Position of a status in the forward order sent → delivered → read. -/
def statusRank : Status → Nat
  | Status.sent => 0
  | Status.delivered => 1
  | Status.read => 2

/-- A persisted `Message` row, restricted to the columns the receipt and
delivery logic reads. -/
structure StoredMsg where
  id : Int
  sender_id : UserId
  receiver_id : UserId
  status : Status
deriving DecidableEq, Repr

/-- A parsed JSON frame, restricted to the keys the handler reads.  A missing
key is `none`; reading a missing key with `payload[...]` raises `KeyError`. -/
structure Payload where
  type : Option String
  content : Option String
  receiver_id : Option UserId
  message_id : Option Int
  sender_id : Option UserId
deriving DecidableEq, Repr

/-- A raw inbound frame: either text that `json.loads` rejects, or a parsed
payload. -/
inductive Frame
  | malformed
  | parsed (p : Payload)
deriving DecidableEq, Repr

/-- The branch of the `if`/`elif` chain that handles a frame. -/
inductive Branch
  | message
  | readReceipt
  | deliveredReceipt
  | typing
  | ping
  | ignored
deriving DecidableEq, Repr

/-- Frame dispatch (chat.py lines 239, 329, 340, 351, 358): a frame with a
`content` key whose type is not "typing" goes to the plain-message branch;
otherwise the type field selects the receipt/typing/ping branch; a frame
matching no branch falls through the chain and is ignored. -/
def classify (p : Payload) : Branch :=
  if p.content.isSome ∧ p.type ≠ some "typing" then Branch.message
  else if p.type = some "read_receipt" then Branch.readReceipt
  else if p.type = some "delivered_receipt" then Branch.deliveredReceipt
  else if p.type = some "typing" then Branch.typing
  else if p.type = some "ping" then Branch.ping
  else Branch.ignored

/-- `db.query(Message).filter(Message.id == mid).first()`. -/
def findMsg (db : List StoredMsg) (mid : Int) : Option StoredMsg :=
  db.find? (fun m => m.id == mid)

/-- Assigning `msg.status = st` on the row returned by `.first()` and
committing: the first row with the given id is updated. -/
def updateStatus (db : List StoredMsg) (mid : Int) (st : Status) : List StoredMsg :=
  match db with
  | [] => []
  | m :: t => if m.id = mid then { m with status := st } :: t else m :: updateStatus t mid st

/-- A `status_update` fan-out call: the user it is sent to, the message id and
the new status it carries. -/
structure StatusUpdate where
  recipient : UserId
  message_id : Int
  status : Status
deriving DecidableEq, Repr

/-- The read-receipt branch (chat.py lines 329-337): look the message up by the
frame's message_id; if it exists and is not already read, set it to read,
commit, and fan a `status_update` out to the user named by the *frame's*
sender_id field. -/
def handleReadReceipt (db : List StoredMsg) (mid : Int) (frameSender : UserId) :
    List StoredMsg × List StatusUpdate :=
  match findMsg db mid with
  | none => (db, [])
  | some msg =>
      if msg.status ≠ Status.read then
        (updateStatus db mid Status.read, [StatusUpdate.mk frameSender msg.id Status.read])
      else (db, [])

/-- The delivered-receipt branch (chat.py lines 340-348): advance to delivered
only from `sent`, and fan the `status_update` out to the frame's sender_id. -/
def handleDeliveredReceipt (db : List StoredMsg) (mid : Int) (frameSender : UserId) :
    List StoredMsg × List StatusUpdate :=
  match findMsg db mid with
  | none => (db, [])
  | some msg =>
      if msg.status = Status.sent then
        (updateStatus db mid Status.delivered,
          [StatusUpdate.mk frameSender msg.id Status.delivered])
      else (db, [])

theorem findMsg_updateStatus (db : List StoredMsg) (mid : Int) (st : Status)
    (msg : StoredMsg) (h : findMsg db mid = some msg) :
    findMsg (updateStatus db mid st) mid = some { msg with status := st } := by
  induction db with
  | nil => simp [findMsg] at h
  | cons m t ih =>
      by_cases hm : m.id = mid
      · simp only [findMsg, updateStatus, if_pos hm] at h ⊢
        rw [List.find?_cons_of_pos _ (by simp [hm])] at h
        rw [List.find?_cons_of_pos _ (by simp [hm])]
        injection h with h
        rw [← h]
      · simp only [findMsg, updateStatus, if_neg hm] at h ⊢
        rw [List.find?_cons_of_neg _ (by simp [hm])] at h
        rw [List.find?_cons_of_neg _ (by simp [hm])]
        exact ih h

/-- C3: the delivery status of a stored message only moves forward.  A
read_receipt for a message already read, and a delivered_receipt for a message
not in `sent`, leave the store unchanged and emit zero notifications; and
after either receipt the message's status rank never decreases. -/
theorem C3_status_never_regresses (db : List StoredMsg) (mid : Int) (sid : UserId)
    (msg : StoredMsg) (h : findMsg db mid = some msg) :
    (msg.status = Status.read → handleReadReceipt db mid sid = (db, []))
    ∧ (msg.status ≠ Status.sent → handleDeliveredReceipt db mid sid = (db, []))
    ∧ statusRank msg.status ≤
        statusRank (((handleReadReceipt db mid sid).1 |> (findMsg · mid)).getD msg).status
    ∧ statusRank msg.status ≤
        statusRank (((handleDeliveredReceipt db mid sid).1 |> (findMsg · mid)).getD msg).status := by
  refine ⟨?_, ?_, ?_, ?_⟩
  · intro hst
    simp [handleReadReceipt, h, hst]
  · intro hst
    simp [handleDeliveredReceipt, h, hst]
  · by_cases hst : msg.status = Status.read
    · simp [handleReadReceipt, h, hst]
    · simp only [handleReadReceipt, h, if_pos (by simpa using hst)]
      rw [findMsg_updateStatus db mid Status.read msg h]
      cases msg.status <;> simp [statusRank]
  · by_cases hst : msg.status = Status.sent
    · simp only [handleDeliveredReceipt, h, if_pos hst]
      rw [findMsg_updateStatus db mid Status.delivered msg h]
      rw [hst]
      simp [statusRank]
    · simp [handleDeliveredReceipt, h, hst]

theorem C3_status_never_regresses_witness :
    ((StoredMsg.mk 5 1 2 Status.read).status = Status.read →
      handleReadReceipt [StoredMsg.mk 5 1 2 Status.read] 5 1
        = ([StoredMsg.mk 5 1 2 Status.read], []))
    ∧ ((StoredMsg.mk 5 1 2 Status.read).status ≠ Status.sent →
      handleDeliveredReceipt [StoredMsg.mk 5 1 2 Status.read] 5 1
        = ([StoredMsg.mk 5 1 2 Status.read], []))
    ∧ statusRank (StoredMsg.mk 5 1 2 Status.read).status ≤
        statusRank (((handleReadReceipt [StoredMsg.mk 5 1 2 Status.read] 5 1).1
          |> (findMsg · 5)).getD (StoredMsg.mk 5 1 2 Status.read)).status
    ∧ statusRank (StoredMsg.mk 5 1 2 Status.read).status ≤
        statusRank (((handleDeliveredReceipt [StoredMsg.mk 5 1 2 Status.read] 5 1).1
          |> (findMsg · 5)).getD (StoredMsg.mk 5 1 2 Status.read)).status :=
  C3_status_never_regresses [StoredMsg.mk 5 1 2 Status.read] 5 1
    (StoredMsg.mk 5 1 2 Status.read) (by rfl)

/-- C8 as stated is false: the status_update produced by a read_receipt is
addressed to the user named in the frame's sender_id field, not to the stored
message's sender_id.  With stored sender 1 and a frame claiming sender 2, the
event goes to user 2. -/
theorem C8_counterexample_frame_sender_wins :
    (handleReadReceipt [StoredMsg.mk 7 1 2 Status.sent] 7 2).2
      = [StatusUpdate.mk 2 7 Status.read]
    ∧ (StoredMsg.mk 7 1 2 Status.sent).sender_id = 1
    ∧ (2 : UserId) ≠ 1 := by
  refine ⟨by rfl, by rfl, by decide⟩

/-- C8 amended: the status_update produced by an advancing read_receipt
(resp. delivered_receipt) is delivered to the user named by the receipt
frame's sender_id field; it reaches the stored message's original sender
exactly when the frame's sender_id equals the stored sender_id. -/
theorem C8_status_update_goes_to_frame_sender (db : List StoredMsg) (mid : Int)
    (frameSender : UserId) (msg : StoredMsg) (h : findMsg db mid = some msg) :
    (msg.status ≠ Status.read →
      (handleReadReceipt db mid frameSender).2
        = [StatusUpdate.mk frameSender msg.id Status.read])
    ∧ (msg.status = Status.sent →
      (handleDeliveredReceipt db mid frameSender).2
        = [StatusUpdate.mk frameSender msg.id Status.delivered]) := by
  constructor
  · intro hst
    simp [handleReadReceipt, h, hst]
  · intro hst
    simp [handleDeliveredReceipt, h, hst]

theorem C8_status_update_goes_to_frame_sender_witness :
    ((StoredMsg.mk 7 1 2 Status.sent).status ≠ Status.read →
      (handleReadReceipt [StoredMsg.mk 7 1 2 Status.sent] 7 1).2
        = [StatusUpdate.mk 1 7 Status.read])
    ∧ ((StoredMsg.mk 7 1 2 Status.sent).status = Status.sent →
      (handleDeliveredReceipt [StoredMsg.mk 7 1 2 Status.sent] 7 1).2
        = [StatusUpdate.mk 1 7 Status.delivered]) :=
  C8_status_update_goes_to_frame_sender [StoredMsg.mk 7 1 2 Status.sent] 7 1
    (StoredMsg.mk 7 1 2 Status.sent) (by rfl)

/-- A `message` fan-out call as built in chat.py lines 291-326, restricted to
the fields the delivery claims are about: which user the call targets, and the
persisted message id, timestamp, and status it carries. -/
structure MsgEvent where
  recipient : UserId
  id : Int
  timestamp : Nat
  status : Status
deriving DecidableEq, Repr

/-- The plain-message branch (chat.py lines 239-326): the receiver's online
state is checked once; the message is persisted with status `delivered` when
the receiver is online and `sent` otherwise; a `message` event is fanned out
to the receiver only when online; an echo event carrying the persisted id and
timestamp is always fanned out to the sender.  `newId` and `ts` stand for the
id and timestamp assigned by the database on commit/refresh. -/
def handleMessage (m : Manager) (sender receiver : UserId) (newId : Int) (ts : Nat) :
    Status × List MsgEvent :=
  let online := m.is_user_online receiver none
  let stv := if online then Status.delivered else Status.sent
  let toReceiver := if online then [MsgEvent.mk receiver newId ts stv] else []
  (stv, toReceiver ++ [MsgEvent.mk sender newId ts stv])

/-- C4: the persisted status is `delivered` exactly when the receiver is
online at the online check; with the receiver offline the only fan-out is the
sender echo; and the sender echo, carrying the persisted message id and
timestamp, is always among the fan-out calls. -/
theorem C4_initial_status_and_sender_echo (m : Manager) (sender receiver : UserId)
    (newId : Int) (ts : Nat) :
    ((handleMessage m sender receiver newId ts).1 =
      if m.is_user_online receiver none then Status.delivered else Status.sent)
    ∧ (m.is_user_online receiver none = false →
        (handleMessage m sender receiver newId ts).2
          = [MsgEvent.mk sender newId ts Status.sent])
    ∧ MsgEvent.mk sender newId ts (handleMessage m sender receiver newId ts).1 ∈
        (handleMessage m sender receiver newId ts).2 := by
  by_cases ho : m.is_user_online receiver none = true
  · simp [handleMessage, ho]
  · simp only [Bool.not_eq_true] at ho
    simp [handleMessage, ho]

theorem C4_initial_status_and_sender_echo_witness :
    ((handleMessage ⟨[]⟩ 1 2 11 3).1 =
      if Manager.is_user_online ⟨[]⟩ 2 none then Status.delivered else Status.sent)
    ∧ (Manager.is_user_online ⟨[]⟩ 2 none = false →
        (handleMessage ⟨[]⟩ 1 2 11 3).2 = [MsgEvent.mk 1 11 3 Status.sent])
    ∧ MsgEvent.mk 1 11 3 (handleMessage ⟨[]⟩ 1 2 11 3).1 ∈ (handleMessage ⟨[]⟩ 1 2 11 3).2 :=
  C4_initial_status_and_sender_echo ⟨[]⟩ 1 2 11 3

theorem classify_ne_message (p : Payload)
    (hc : ¬(p.content.isSome ∧ p.type ≠ some "typing")) :
    classify p ≠ Branch.message := by
  unfold classify
  rw [if_neg hc]
  by_cases h1 : p.type = some "read_receipt"
  · simp [h1]
  · rw [if_neg h1]
    by_cases h2 : p.type = some "delivered_receipt"
    · simp [h2]
    · rw [if_neg h2]
      by_cases h3 : p.type = some "typing"
      · simp [h3]
      · rw [if_neg h3]
        by_cases h4 : p.type = some "ping"
        · simp [h4]
        · simp [h4]

/-- C7 as stated is false: a frame whose type is read_receipt but which also
carries a content key is handled by the plain-message branch, not the receipt
handler — the content check comes first in the `if`/`elif` chain. -/
theorem C7_counterexample_content_overrides_type :
    classify (Payload.mk (some "read_receipt") (some "hi") none none none) = Branch.message
    ∧ Branch.message ≠ Branch.readReceipt := by
  refine ⟨by rfl, by decide⟩

/-- C7 amended: a frame carrying a content key is handled as a plain message
unless its type is "typing"; a typing frame goes to the typing handler
regardless of its other fields; a frame without content is dispatched purely
by its type field. -/
theorem C7_dispatch_checks_content_first (p : Payload) :
    (classify p = Branch.message ↔ (p.content.isSome ∧ p.type ≠ some "typing"))
    ∧ (p.type = some "typing" → classify p = Branch.typing)
    ∧ (p.content = none → p.type = some "read_receipt" → classify p = Branch.readReceipt)
    ∧ (p.content = none → p.type = some "delivered_receipt" →
        classify p = Branch.deliveredReceipt)
    ∧ (p.content = none → p.type = some "ping" → classify p = Branch.ping) := by
  refine ⟨?_, ?_, ?_, ?_, ?_⟩
  · constructor
    · intro h
      by_contra hc
      exact classify_ne_message p hc h
    · intro hc
      simp [classify, hc]
  · intro ht
    simp [classify, ht]
  · intro hc ht
    simp [classify, hc, ht]
  · intro hc ht
    simp [classify, hc, ht]
  · intro hc ht
    simp [classify, hc, ht]

theorem C7_dispatch_checks_content_first_witness :
    (classify (Payload.mk (some "typing") (some "hi") (some 2) none none) = Branch.message ↔
      ((Payload.mk (some "typing") (some "hi") (some 2) none none).content.isSome
        ∧ (Payload.mk (some "typing") (some "hi") (some 2) none none).type ≠ some "typing"))
    ∧ classify (Payload.mk (some "typing") (some "hi") (some 2) none none) = Branch.typing :=
  ⟨(C7_dispatch_checks_content_first _).1,
    (C7_dispatch_checks_content_first (Payload.mk (some "typing") (some "hi") (some 2) none none)).2.1 rfl⟩

/-- Per-connection loop state: the shared registry and the message store. -/
structure LoopState where
  mgr : Manager
  db : List StoredMsg
deriving DecidableEq, Repr

/-- An exception escaping the processing of one frame: `json.loads` failing on
the raw text, or `payload[...]` on a missing key. -/
inductive LoopErr
  | jsonError
  | keyError (field : String)
deriving DecidableEq, Repr

/-- Processing of one inbound frame by the receive loop body (chat.py lines
236-359).  Returns the state after the frame and, when an exception escapes,
which one; the state reflects any commit made before the raising expression.
Fan-out calls and their possible pruning of dead connections are not modelled
here (no send fails), so the registry is only read, never written. -/
def processFrame (cid : UserId) (st : LoopState) : Frame → LoopState × Option LoopErr
  | Frame.malformed => (st, some LoopErr.jsonError)
  | Frame.parsed p =>
      match classify p with
      | Branch.message =>
          match p.receiver_id with
          | none => (st, some (LoopErr.keyError "receiver_id"))
          | some rid =>
              let newId := Int.ofNat st.db.length + 1
              let stv := if st.mgr.is_user_online rid none then Status.delivered
                         else Status.sent
              (LoopState.mk st.mgr (st.db ++ [StoredMsg.mk newId cid rid stv]), none)
      | Branch.readReceipt =>
          match p.message_id with
          | none => (st, some (LoopErr.keyError "message_id"))
          | some mid =>
              match findMsg st.db mid with
              | none => (st, none)
              | some msg =>
                  if msg.status ≠ Status.read then
                    let st' := LoopState.mk st.mgr (updateStatus st.db mid Status.read)
                    match p.sender_id with
                    | none => (st', some (LoopErr.keyError "sender_id"))
                    | some _ => (st', none)
                  else (st, none)
      | Branch.deliveredReceipt =>
          match p.message_id with
          | none => (st, some (LoopErr.keyError "message_id"))
          | some mid =>
              match findMsg st.db mid with
              | none => (st, none)
              | some msg =>
                  if msg.status = Status.sent then
                    let st' := LoopState.mk st.mgr (updateStatus st.db mid Status.delivered)
                    match p.sender_id with
                    | none => (st', some (LoopErr.keyError "sender_id"))
                    | some _ => (st', none)
                  else (st, none)
      | Branch.typing =>
          match p.receiver_id with
          | none => (st, some (LoopErr.keyError "receiver_id"))
          | some _ => (st, none)
      | Branch.ping => (st, none)
      | Branch.ignored => (st, none)

/-- The receive loop (chat.py lines 234-360): frames are processed in order;
the first exception escaping a frame aborts the loop, leaving the remaining
frames unread.  Returns the final state, the number of frames consumed, and
the escaping exception if any. -/
def runLoop (cid : UserId) : List Frame → LoopState → LoopState × Nat × Option LoopErr
  | [], st => (st, 0, none)
  | f :: rest, st =>
      match processFrame cid st f with
      | (st', none) =>
          let r := runLoop cid rest st'
          (r.1, r.2.1 + 1, r.2.2)
      | (st', some e) => (st', 1, some e)

/-- How a connection's receive loop exits: `receive_text` raising
`WebSocketDisconnect` (clean client close or transport failure), or any other
exception escaping the processing of a frame. -/
inductive ExitCause
  | clientClose
  | transportError
  | frameException (e : LoopErr)
deriving DecidableEq, Repr

/-- End-of-session handling (chat.py lines 361-371): only
`WebSocketDisconnect` is caught, and its handler unregisters the connection
and announces `offline` when no connection remains.  Any other exception
propagates out of the endpoint, so the registry keeps the connection and no
announcement is made. -/
def sessionEnd (m : Manager) (ws : WS) (uid : UserId) : ExitCause → Manager × List PEvent
  | ExitCause.clientClose => handleClose m ws uid
  | ExitCause.transportError => handleClose m ws uid
  | ExitCause.frameException _ => (m, [])

/-- C5 is the spec's intent but the code violates it: a frame that is not
valid JSON, and a parsed message frame missing receiver_id, both escape the
`try` block (only `WebSocketDisconnect` is caught), so the loop terminates
after that frame with the exception, leaving the following ping frame
unread — the frame is not skipped and the loop does not continue. -/
theorem C5_code_bug_malformed_frame_kills_loop :
    (runLoop 1 [Frame.malformed, Frame.parsed (Payload.mk (some "ping") none none none none)]
        (LoopState.mk ⟨[(1, [10])]⟩ [])
      = (LoopState.mk ⟨[(1, [10])]⟩ [], 1, some LoopErr.jsonError))
    ∧ (runLoop 1 [Frame.parsed (Payload.mk none (some "hi") none none none),
          Frame.parsed (Payload.mk (some "ping") none none none none)]
        (LoopState.mk ⟨[(1, [10])]⟩ [])
      = (LoopState.mk ⟨[(1, [10])]⟩ [], 1, some (LoopErr.keyError "receiver_id"))) := by
  refine ⟨by rfl, by rfl⟩

/-- C6 is the spec's intent but the code violates it on the unhandled-exception
exit path: a message frame missing receiver_id raises `KeyError`, which is not
`WebSocketDisconnect`, so the cleanup block never runs — the connection stays
registered, the user still reads as online, and no offline announcement is
made; whereas the caught `WebSocketDisconnect` paths do unregister and
announce offline. -/
theorem C6_code_bug_uncaught_exception_skips_cleanup :
    (processFrame 1 (LoopState.mk ⟨[(1, [10])]⟩ [])
        (Frame.parsed (Payload.mk none (some "hi") none none none))
      = (LoopState.mk ⟨[(1, [10])]⟩ [], some (LoopErr.keyError "receiver_id")))
    ∧ (sessionEnd ⟨[(1, [10])]⟩ 10 1 (ExitCause.frameException (LoopErr.keyError "receiver_id"))
        = (⟨[(1, [10])]⟩, []))
    ∧ (Manager.is_user_online ⟨[(1, [10])]⟩ 1 none = true)
    ∧ (sessionEnd ⟨[(1, [10])]⟩ 10 1 ExitCause.clientClose
        = (⟨[]⟩, [PEvent.offline 1]))
    ∧ (sessionEnd ⟨[(1, [10])]⟩ 10 1 ExitCause.transportError
        = (⟨[]⟩, [PEvent.offline 1])) := by
  refine ⟨by rfl, by rfl, by rfl, ?_, ?_⟩
  · simp [sessionEnd, handleClose, Manager.disconnect, Manager.is_user_online,
      List.lookup, delEntry, List.erase_cons_head]
  · simp [sessionEnd, handleClose, Manager.disconnect, Manager.is_user_online,
      List.lookup, delEntry, List.erase_cons_head]

theorem C2_online_iff_nonempty_and_no_empty_entries_witness :
    ((runRegOps [RegOp.conn 3 1]).is_user_online 1 none = true ↔
      0 < (runRegOps [RegOp.conn 3 1]).get_connection_count 1)
    ∧ (runRegOps [RegOp.conn 3 1]).NoEmpty :=
  C2_online_iff_nonempty_and_no_empty_entries [RegOp.conn 3 1] 1
